import Mathlib

/-!
Verification development for kernel/engines/xuperos/chain.go.

The Chain orchestrator's public operations (PreExec, SubmitTx, ProcBlock,
LoadChain/initChainCtx) are shallowly embedded as pure Lean functions.
External collaborators (the state machine, the contract manager, the rely
agent, the miner) are passed in as explicit oracle records, so each embedded
operation is a deterministic function of the chain.go control flow and those
oracles.  The go-cache backed transaction-id cache is abstracted to its
membership content; each single cache operation (Get / Set / Delete) is
atomic, matching go-cache's internal mutex.
-/

namespace Xuperos

/-- Standard error values of the common package: an error code plus a
message.  `More` keeps the code and replaces the message (it reformats the
detail text); `Equal` compares error codes only, which is how
`common.CastError(err).Equal(...)` classifies errors in chain.go. -/
structure XError where
  code : Nat
  msg : String
deriving DecidableEq

def XError.more (e : XError) (m : String) : XError :=
  ⟨e.code, m⟩

def XError.equal (a b : XError) : Bool :=
  a.code == b.code

def errParameter : XError := ⟨50101, "param error"⟩

def errNewLogFailed : XError := ⟨50102, "new logger failed"⟩

def errNewChainCtxFailed : XError := ⟨50103, "new chain context failed"⟩

def errTxNotEnough : XError := ⟨50104, "tx input not enough"⟩

def errTxAlreadyExist : XError := ⟨50105, "tx already exist"⟩

def errTxVerifyFailed : XError := ⟨50106, "verify tx failed"⟩

def errSubmitTxFailed : XError := ⟨50107, "submit tx failed"⟩

def errForbidden : XError := ⟨50108, "forbidden"⟩

def errProcBlockFailed : XError := ⟨50109, "process block failed"⟩

def errContractNewSandboxFailed : XError := ⟨50110, "contract new sandbox failed"⟩

def errContractNewCtxFailed : XError := ⟨50111, "contract new context failed"⟩

def errContractInvokeFailed : XError := ⟨50112, "contract invoke failed"⟩

def errInternal : XError := ⟨50113, "internal error"⟩

/-- Go `error` values as seen by chain.go: either a `common.Error`
(code + message) or some other error carrying only a message. -/
inductive GoError where
  | x (e : XError)
  | s (m : String)
deriving DecidableEq

def GoError.message : GoError → String
  | .x e => e.msg
  | .s m => m

/-- Modelled from the spec: `common.CastError` of the common package is not
under src/.  It casts a `common.Error` to itself; any other error does not
compare equal to a specific common error code (it is treated as an internal
error), so code-based classification only matches common errors. -/
def castError : GoError → XError
  | .x e => e
  | .s _ => errInternal

/-- Go `strings.HasSuffix` on the byte/character data of the strings. -/
def goHasSuffix (s suffix : String) : Bool :=
  suffix.data.isSuffixOf s.data

/- ===== Admission cache (go-cache txIdCache), abstracted to membership ===== -/

def cacheGet (c : List String) (k : String) : Bool :=
  c.contains k

def cacheSet (c : List String) (k : String) : List String :=
  k :: c

def cacheDelete (c : List String) (k : String) : List String :=
  c.filter (fun x => x != k)

/- ===== SubmitTx ===== -/

/-- Transaction, restricted to the fields chain.go reads: its identifier
bytes (as a string, which is exactly how the cache keys it) and its input
references (only the count is inspected). -/
structure Transaction where
  txid : String
  txInputs : List String
deriving DecidableEq

/-- Error returned by State.DoTx: either the sentinel
`state.ErrAlreadyInUnconfirmed` (compared by identity in chain.go) or any
other error with a message. -/
inductive StateErr where
  | alreadyInUnconfirmed
  | other (m : String)
deriving DecidableEq

def StateErr.msg : StateErr → String
  | .alreadyInUnconfirmed => "tx already in unconfirmed table"
  | .other m => m

/-- State-machine oracle for SubmitTx.  `queryTx` returns the durable lookup
result: the found transaction (if any) and the lookup error, which chain.go
assigns to the blank identifier.  `verifyTx` and `doTx` return their error
(none means success). -/
structure StateMachine where
  queryTx : String → Option Transaction × Option String
  verifyTx : Transaction → Option String
  doTx : Transaction → Option StateErr

/-- Trace entry: a call into the state machine made by SubmitTx. -/
inductive SMCall where
  | queryTx
  | verifyTx
  | doTx
deriving DecidableEq

/-- Result of a SubmitTx run: returned error (none is success), the cache
content after the call, and the trace of state-machine calls made. -/
structure SubmitResult where
  res : Option XError
  cache : List String
  calls : List SMCall
deriving DecidableEq

/-- Chain.SubmitTx of chain.go.  `noFee` is `Ledger.GetNoFee()`, `ctxOk`
models `ctx != nil && ctx.GetLog() != nil`, `cache` is the txIdCache
content. -/
def SubmitTx (noFee : Bool) (sm : StateMachine) (cache : List String)
    (ctxOk : Bool) (txArg : Option Transaction) : SubmitResult :=
  match txArg with
  | none => ⟨some errParameter, cache, []⟩
  | some tx =>
    if ¬ctxOk ∨ tx.txid.length = 0 then ⟨some errParameter, cache, []⟩
    else if tx.txInputs.length = 0 ∧ ¬noFee then
      ⟨some errTxNotEnough, cache, []⟩
    else if cacheGet cache tx.txid then
      ⟨some errTxAlreadyExist, cache, []⟩
    else
      let cache1 := cacheSet cache tx.txid
      match (sm.queryTx tx.txid).1 with
      | some _ => ⟨some errTxAlreadyExist, cache1, [.queryTx]⟩
      | none =>
        match sm.verifyTx tx with
        | some e =>
          ⟨some (errTxVerifyFailed.more ("err:" ++ e)), cache1, [.queryTx, .verifyTx]⟩
        | none =>
          match sm.doTx tx with
          | some e =>
            let cache2 :=
              if e = .alreadyInUnconfirmed then cacheDelete cache1 tx.txid else cache1
            ⟨some (errSubmitTxFailed.more ("err:" ++ e.msg)), cache2,
              [.queryTx, .verifyTx, .doTx]⟩
          | none => ⟨none, cache1, [.queryTx, .verifyTx, .doTx]⟩

/- ===== Interleaving model of the cache fast path of SubmitTx ===== -/

/-- One SubmitTx caller's progress through the cache fast path of chain.go
(lines 276-279).  `pc = 0`: about to run `txIdCache.Get`; `pc = 1`: the Get
missed, about to run `txIdCache.Set`; `pc = 2`: finished.  `sawExist`
records the Get outcome; a caller that finishes with `sawExist = true`
returned ErrTxAlreadyExist, one with `sawExist = false` proceeded past the
cache check. -/
structure Caller where
  pc : Nat
  sawExist : Bool
deriving DecidableEq

/-- Shared state of two concurrent SubmitTx calls for the same identifier:
the cache plus each caller's local state. -/
structure ConcState where
  cache : List String
  c0 : Caller
  c1 : Caller
deriving DecidableEq

/-- Execute one atomic cache operation of one caller.  Get and Set are each
individually atomic (go-cache holds its mutex per operation), but nothing in
chain.go makes the Get-then-Set pair atomic. -/
def stepOne (txid : String) (c : Caller) (cache : List String) :
    Caller × List String :=
  match c.pc with
  | 0 =>
    let ex := cacheGet cache txid
    (⟨if ex then 2 else 1, ex⟩, cache)
  | 1 => (⟨2, c.sawExist⟩, cacheSet cache txid)
  | _ => (c, cache)

/-- Run one scheduled step: `who = false` steps caller 0, `who = true` steps
caller 1. -/
def stepSched (txid : String) (st : ConcState) (who : Bool) : ConcState :=
  if who then
    let p := stepOne txid st.c1 st.cache
    ⟨p.2, st.c0, p.1⟩
  else
    let p := stepOne txid st.c0 st.cache
    ⟨p.2, p.1, st.c1⟩

/-- Run a whole schedule (a list of caller choices) over the shared state. -/
def runSched (txid : String) : List Bool → ConcState → ConcState
  | [], st => st
  | w :: rest, st => runSched txid rest (stepSched txid st w)

def initConc (cache : List String) : ConcState :=
  ⟨cache, ⟨0, false⟩, ⟨0, false⟩⟩

/-- Caller finished its cache fast path with a non-AlreadyExists outcome. -/
def nonAlreadyExists (c : Caller) : Bool :=
  c.pc == 2 && !c.sawExist

/- ===== PreExec ===== -/

/-- Resource usage, `contract.Limits`: the fields of the contract package's
limits record. -/
structure Limits where
  cpu : Int
  memory : Int
  disk : Int
  xfee : Int
deriving DecidableEq

/-- protos.InvokeRequest, restricted to the fields chain.go reads and
writes.  `resourceLimits` is filled with the measured usage
(`contract.ToPbLimits`, abstracted to the usage record itself) on the copy
appended to the output request list. -/
structure InvokeRequest where
  moduleName : String
  contractName : String
  methodName : String
  args : List (String × String)
  resourceLimits : Option Limits
deriving DecidableEq

/-- protos.ContractResponse as built by chain.go from a contract sdk
response. -/
structure ContractResponse where
  status : Int
  message : String
  body : String
deriving DecidableEq

/-- Contract sdk response returned by `context.Invoke`. -/
structure Response where
  status : Int
  message : String
  body : String
deriving DecidableEq

/-- contract.ContextConfig as filled by PreExec per request (the constant
`ResourceLimits: contract.MaxLimits` field is omitted because it never
varies). -/
structure ContextConfig where
  module : String
  contractName : String
  transferAmount : String
  initiator : String
  authRequire : List String
  chainName : String
deriving DecidableEq

/-- Per-request execution context handed back by `Contract.NewContext`:
its `Invoke` behaviour and its measured `ResourceUsed`. -/
structure CCtx where
  invoke : String → List (String × String) → Except String Response
  resourceUsed : Limits

/-- Read/write sets materialized by `sandbox.Flush`; the xmodel conversions
`GetTxInputs`/`GetTxOutputs` are abstracted to the resulting lists. -/
structure RWSets where
  inputs : List String
  outputs : List String
  utxoInputs : List String
  utxoOutputs : List String
deriving DecidableEq

/-- protos.InvokeResponse as assembled at the end of PreExec. -/
structure InvokeResponse where
  gasUsed : Int
  response : List String
  inputs : List String
  outputs : List String
  utxoInputs : List String
  utxoOutputs : List String
  requests : List InvokeRequest
  responses : List ContractResponse
deriving DecidableEq

def emptyInvokeResponse : InvokeResponse :=
  ⟨0, [], [], [], [], [], [], []⟩

/-- Oracles consumed by PreExec: the state machine's reserved-request
synthesis, the tx package's transfer parse (returning the transfer target
contract name and the amount rendered as a string), sandbox creation, the
contract-descriptor lookup in current state (its error is returned raw by
chain.go), per-config execution-context creation, the gas price from state
meta, the contract package's priced-gas function `Limits.TotalGas`, and the
sandbox flush result. -/
structure PreExecEnv where
  getReserved : Except String (List (Option InvokeRequest))
  parseTransfer : Except String (String × String)
  newSandbox : Except String Unit
  getContractDesc : String → Except GoError String
  newContext : ContextConfig → Except String CCtx
  gasPrice : Int
  totalGas : Limits → Int → Int
  flush : Except GoError RWSets

/-- Loop-invariant parameters of the per-request loop of PreExec:
the oracles, the reserved-request count K (`len(reservedRequests)`), the
parsed transfer target and amount, and the caller-supplied identities. -/
structure LoopEnv where
  env : PreExecEnv
  K : Nat
  transName : String
  transAmount : String
  initiator : String
  authRequire : List String
  chainName : String

/-- Mutable accumulator state of the per-request loop. -/
structure LoopState where
  gasUsed : Int
  responseBodes : List String
  requests : List InvokeRequest
  responses : List ContractResponse
deriving DecidableEq

/-- Module resolution for one request: an unspecified module is looked up
from the contract descriptor in current state; that lookup's error is
propagated as-is. -/
def resolveModule (L : LoopEnv) (req : InvokeRequest) : Except GoError String :=
  if req.moduleName = "" then L.env.getContractDesc req.contractName
  else .ok req.moduleName

/-- Context configuration built by PreExec for one request at the resolved
module. -/
def mkConfig (L : LoopEnv) (req : InvokeRequest) (module : String) :
    ContextConfig :=
  ⟨module, req.contractName,
    (if L.transName = req.contractName then L.transAmount else ""),
    L.initiator, L.authRequire, L.chainName⟩

/-- Per-request loop of PreExec (chain.go lines 162-239), indexed by the
position `i` in the combined reserved-plus-user request list.  Nil requests
and fully-empty requests are skipped; an unspecified module is resolved by
descriptor lookup whose failure aborts with the raw lookup error; a
reserved request (i < K) whose context construction fails with an error
message ending in "not found" is appended to the output request list and
skipped; any other context-construction failure, any invocation error, and
a reserved request answering with status >= 400 abort the whole loop; a
successful user request (i >= K) adds its priced resource usage to the gas
aggregate, while a successful reserved request adds nothing. -/
def preExecLoop (L : LoopEnv) :
    Nat → List (Option InvokeRequest) → LoopState → Except GoError LoopState
  | _, [], s => .ok s
  | i, none :: rest, s => preExecLoop L (i + 1) rest s
  | i, some req :: rest, s =>
    if req.moduleName = "" ∧ req.contractName = "" ∧ req.methodName = "" then
      preExecLoop L (i + 1) rest s
    else
      match resolveModule L req with
      | .error e => .error e
      | .ok module =>
        match L.env.newContext (mkConfig L req module) with
        | .error e =>
          if i < L.K ∧ goHasSuffix e "not found" then
            preExecLoop L (i + 1) rest
              { s with requests := s.requests ++ [req] }
          else .error (.x (errContractNewCtxFailed.more e))
        | .ok cctx =>
          match cctx.invoke req.methodName req.args with
          | .error e => .error (.x (errContractInvokeFailed.more e))
          | .ok resp =>
            if resp.status ≥ 400 ∧ i < L.K then
              .error (.x (errContractInvokeFailed.more resp.message))
            else
              preExecLoop L (i + 1) rest
                { gasUsed := s.gasUsed +
                    (if i ≥ L.K then L.env.totalGas cctx.resourceUsed L.env.gasPrice
                     else 0),
                  responseBodes := s.responseBodes ++ [resp.body],
                  requests := s.requests ++
                    [{ req with resourceLimits := some cctx.resourceUsed }],
                  responses := s.responses ++
                    [⟨resp.status, resp.message, resp.body⟩] }

/-- Result of a PreExec run: the returned response (none on error), the
returned error (none on success), and whether `sandbox.Flush()` was
invoked. -/
structure PreExecResult where
  resp : Option InvokeResponse
  err : Option GoError
  flushed : Bool
deriving DecidableEq

/-- Chain.PreExec of chain.go.  `ctxOk` models
`ctx != nil && ctx.GetLog() != nil`; `reqs` is the caller's request list
(entries may be nil). -/
def PreExec (env : PreExecEnv) (ctxOk : Bool) (reqs : List (Option InvokeRequest))
    (initiator : String) (authRequire : List String) (chainName : String) :
    PreExecResult :=
  if ¬ctxOk then ⟨none, some (.x errParameter), false⟩
  else
    match env.getReserved with
    | .error e => ⟨none, some (.x (errParameter.more e)), false⟩
    | .ok reserved =>
      match env.parseTransfer with
      | .error e => ⟨none, some (.x (errParameter.more e)), false⟩
      | .ok p =>
        let combined := reserved ++ reqs
        if combined.length = 0 then ⟨some emptyInvokeResponse, none, false⟩
        else
          match env.newSandbox with
          | .error _ => ⟨none, some (.x errContractNewSandboxFailed), false⟩
          | .ok _ =>
            let L : LoopEnv :=
              ⟨env, reserved.length, p.1, p.2, initiator, authRequire, chainName⟩
            match preExecLoop L 0 combined ⟨0, [], [], []⟩ with
            | .error e => ⟨none, some e, false⟩
            | .ok s =>
              match env.flush with
              | .error e => ⟨none, some e, true⟩
              | .ok rw =>
                ⟨some ⟨s.gasUsed, s.responseBodes, rw.inputs, rw.outputs,
                  rw.utxoInputs, rw.utxoOutputs, s.requests, s.responses⟩,
                  none, true⟩

/-- Follows the spec's words (spec section 8, reserved-request gas
exemption): the aggregate gas of a batch is the sum of the priced resource
usage of the successfully executed user requests only; requests at
positions below the reserved count K contribute zero.  Defined over the
same oracles so the two notions can be compared on successful runs. -/
def specUserGas (L : LoopEnv) : Nat → List (Option InvokeRequest) → Int
  | _, [] => 0
  | i, none :: rest => specUserGas L (i + 1) rest
  | i, some req :: rest =>
    if req.moduleName = "" ∧ req.contractName = "" ∧ req.methodName = "" then
      specUserGas L (i + 1) rest
    else
      match resolveModule L req with
      | .error _ => 0
      | .ok module =>
        match L.env.newContext (mkConfig L req module) with
        | .error _ => specUserGas L (i + 1) rest
        | .ok cctx =>
          match cctx.invoke req.methodName req.args with
          | .error _ => 0
          | .ok resp =>
            if resp.status ≥ 400 ∧ i < L.K then 0
            else
              (if i ≥ L.K then L.env.totalGas cctx.resourceUsed L.env.gasPrice
               else 0) + specUserGas L (i + 1) rest

/- ===== ProcBlock ===== -/

/-- Block, restricted to the fields chain.go reads: the identifier (nil
possible — `GetBlockid() == nil` is a parameter error) and the height. -/
structure Block where
  blockid : Option String
  height : Int
deriving DecidableEq

/-- Result of a ProcBlock run: the returned error (none is success) and
whether the mining/consensus delegate `miner.ProcBlock` was invoked. -/
structure ProcResult where
  res : Option XError
  delegateCalled : Bool
deriving DecidableEq

/-- Chain.ProcBlock of chain.go.  `minerProc` is the delegate's outcome
(`miner.ProcBlock(ctx, block)`), `ctxOk` models
`ctx != nil && ctx.GetLog() != nil`. -/
def ProcBlock (minerProc : Option GoError) (ctxOk : Bool)
    (blockArg : Option Block) : ProcResult :=
  match blockArg with
  | none => ⟨some errParameter, false⟩
  | some b =>
    if ¬ctxOk ∨ b.blockid = none then ⟨some errParameter, false⟩
    else
      match minerProc with
      | none => ⟨none, true⟩
      | some err =>
        if (castError err).equal errForbidden then ⟨some errForbidden, true⟩
        else if (castError err).equal errParameter then ⟨some errParameter, true⟩
        else ⟨some (errProcBlockFailed.more ("err:" ++ err.message)), true⟩

/- ===== initChainCtx / LoadChain ===== -/

/-- Rely-agent oracle: the outcome of each subsystem-construction call made
by initChainCtx, in source order.  `getCryptoType` is the ledger agent's
crypto-type query made inside step 2. -/
structure RelyAgent where
  createLedger : Except String Unit
  getCryptoType : Except String String
  createCrypto : Except String Unit
  createState : Except String Unit
  loadAddrInfo : Except String Unit
  createContract : Except String Unit
  createAcl : Except String Unit
  createConsensus : Except String Unit
  createGovernToken : Except String Unit
  createProposal : Except String Unit
  createTimerTask : Except String Unit
  createXToken : Except String Unit

/-- Chain.initChainCtx of chain.go: runs the eleven numbered construction
steps in order and stops at the first failure.  Returns the error message
surfaced (none on success) together with the list of step numbers that were
entered: step 1 (ledger) and step 11 (xtoken) propagate the underlying
error unchanged, steps 2-10 replace it with a fixed step message. -/
def initChainCtx (a : RelyAgent) : Option String × List Nat :=
  match a.createLedger with
  | .error e => (some e, [1])
  | .ok _ =>
  match a.getCryptoType with
  | .error _ => (some "query crypto type failed", [1, 2])
  | .ok _ =>
  match a.createCrypto with
  | .error _ => (some "create crypto client failed", [1, 2])
  | .ok _ =>
  match a.createState with
  | .error _ => (some "open state failed", [1, 2, 3])
  | .ok _ =>
  match a.loadAddrInfo with
  | .error _ => (some "load node addr info error", [1, 2, 3, 4])
  | .ok _ =>
  match a.createContract with
  | .error _ => (some "create contract manager error", [1, 2, 3, 4, 5])
  | .ok _ =>
  match a.createAcl with
  | .error _ => (some "create acl error", [1, 2, 3, 4, 5, 6])
  | .ok _ =>
  match a.createConsensus with
  | .error _ => (some "create consensus error", [1, 2, 3, 4, 5, 6, 7])
  | .ok _ =>
  match a.createGovernToken with
  | .error _ => (some "create govern token error", [1, 2, 3, 4, 5, 6, 7, 8])
  | .ok _ =>
  match a.createProposal with
  | .error _ => (some "create proposal error", [1, 2, 3, 4, 5, 6, 7, 8, 9])
  | .ok _ =>
  match a.createTimerTask with
  | .error _ => (some "create timer_task error", [1, 2, 3, 4, 5, 6, 7, 8, 9, 10])
  | .ok _ =>
  match a.createXToken with
  | .error e => (some e, [1, 2, 3, 4, 5, 6, 7, 8, 9, 10, 11])
  | .ok _ => (none, [1, 2, 3, 4, 5, 6, 7, 8, 9, 10, 11])

/-- Chain instance as observable by LoadChain's caller: the chain name and
whether the admission cache was initialized. -/
structure ChainModel where
  bcName : String
  cacheReady : Bool
deriving DecidableEq

/-- LoadChain of chain.go.  `engCtxOk` models `engCtx != nil`;
`newLogger` is the `logs.NewLogger` outcome; on initChainCtx failure the
cause is wrapped into ErrNewChainCtxFailed and no chain object is
returned. -/
def LoadChain (engCtxOk : Bool) (bcName : String)
    (newLogger : Except Unit Unit) (a : RelyAgent) : Except XError ChainModel :=
  if ¬engCtxOk ∨ bcName = "" then .error errParameter
  else
    match newLogger with
    | .error _ => .error errNewLogFailed
    | .ok _ =>
      match (initChainCtx a).1 with
      | some e => .error (errNewChainCtxFailed.more ("err:" ++ e))
      | none => .ok ⟨bcName, true⟩

/-- Rely agent whose construction call number `k` (in the call order
1 = createLedger, 2 = getCryptoType, 3 = createCrypto, 4 = createState,
5 = loadAddrInfo, 6 = createContract, 7 = createAcl, 8 = createConsensus,
9 = createGovernToken, 10 = createProposal, 11 = createTimerTask,
12 = createXToken) fails with error message `e` and every other call
succeeds. -/
def failAt (k : Nat) (e : String) : RelyAgent where
  createLedger := if k = 1 then .error e else .ok ()
  getCryptoType := if k = 2 then .error e else .ok "gm"
  createCrypto := if k = 3 then .error e else .ok ()
  createState := if k = 4 then .error e else .ok ()
  loadAddrInfo := if k = 5 then .error e else .ok ()
  createContract := if k = 6 then .error e else .ok ()
  createAcl := if k = 7 then .error e else .ok ()
  createConsensus := if k = 8 then .error e else .ok ()
  createGovernToken := if k = 9 then .error e else .ok ()
  createProposal := if k = 10 then .error e else .ok ()
  createTimerTask := if k = 11 then .error e else .ok ()
  createXToken := if k = 12 then .error e else .ok ()

/-- Error cause surfaced by initChainCtx when call number `k` fails with
underlying message `e`: calls 1 and 12 (steps 1 and 11) surface `e` itself,
the calls in between surface a fixed step-identifying message. -/
def expectedCause (k : Nat) (e : String) : String :=
  if k = 1 then e
  else if k = 2 then "query crypto type failed"
  else if k = 3 then "create crypto client failed"
  else if k = 4 then "open state failed"
  else if k = 5 then "load node addr info error"
  else if k = 6 then "create contract manager error"
  else if k = 7 then "create acl error"
  else if k = 8 then "create consensus error"
  else if k = 9 then "create govern token error"
  else if k = 10 then "create proposal error"
  else if k = 11 then "create timer_task error"
  else e

/-- Step numbers entered when call number `k` is the first to fail. -/
def enteredSteps (k : Nat) : List Nat :=
  if k = 1 then [1]
  else if k = 2 then [1, 2]
  else if k = 3 then [1, 2]
  else if k = 4 then [1, 2, 3]
  else if k = 5 then [1, 2, 3, 4]
  else if k = 6 then [1, 2, 3, 4, 5]
  else if k = 7 then [1, 2, 3, 4, 5, 6]
  else if k = 8 then [1, 2, 3, 4, 5, 6, 7]
  else if k = 9 then [1, 2, 3, 4, 5, 6, 7, 8]
  else if k = 10 then [1, 2, 3, 4, 5, 6, 7, 8, 9]
  else if k = 11 then [1, 2, 3, 4, 5, 6, 7, 8, 9, 10]
  else [1, 2, 3, 4, 5, 6, 7, 8, 9, 10, 11]

/- ===== Concrete instances used to evaluate the models ===== -/

/-- Reserved request synthesized by the state machine in the sample batch:
a kernel-module timer trigger. -/
def r0 : InvokeRequest :=
  ⟨"xkernel", "timer", "Do", [], none⟩

/-- User request of the sample batch. -/
def r1 : InvokeRequest :=
  ⟨"wasm", "counter", "increase", [("k", "v")], none⟩

/-- Execution context used for successful sample invocations: one response
and a fixed resource usage. -/
def cctx9 : CCtx :=
  ⟨fun _ _ => .ok ⟨200, "done", "body1"⟩, ⟨1, 2, 3, 4⟩⟩

/-- Sample PreExec environment: one reserved request whose context
construction fails with a "not found" cause, while every other contract's
context construction and invocation succeed. -/
def env9 : PreExecEnv where
  getReserved := .ok [some r0]
  parseTransfer := .ok ("", "0")
  newSandbox := .ok ()
  getContractDesc := fun _ => .error (.s "no descriptor")
  newContext := fun cfg =>
    if cfg.contractName = "timer" then .error "kernel contract timer not found"
    else .ok cctx9
  gasPrice := 1
  totalGas := fun l p => (l.cpu + l.memory + l.disk + l.xfee) * p
  flush := .ok ⟨["in1"], ["out1"], [], []⟩

/-- Loop environment PreExec builds for `env9` with user request list
`[some r1]`. -/
def L9 : LoopEnv :=
  ⟨env9, 1, "", "0", "alice", [], "xuper"⟩

/-- InvokeResponse produced by PreExec on `env9` with user request
`[some r1]`: the reserved request appears in `requests` with no matching
entry in `responses`, and the aggregate gas is the user request's priced
usage only. -/
def ir9 : InvokeResponse :=
  ⟨10, ["body1"], ["in1"], ["out1"], [], [],
    [r0, { r1 with resourceLimits := some (⟨1, 2, 3, 4⟩ : Limits) }],
    [⟨200, "done", "body1"⟩]⟩

/-- User request whose invocation fails in the sample fatal batch. -/
def r5 : InvokeRequest :=
  ⟨"wasm", "bad", "boom", [], none⟩

/-- Sample PreExec environment whose single user request fails at
invocation time. -/
def env5 : PreExecEnv where
  getReserved := .ok []
  parseTransfer := .ok ("", "")
  newSandbox := .ok ()
  getContractDesc := fun _ => .error (.s "no descriptor")
  newContext := fun _ => .ok ⟨fun _ _ => .error "vm crashed", ⟨0, 0, 0, 0⟩⟩
  gasPrice := 1
  totalGas := fun l p => (l.cpu + l.memory + l.disk + l.xfee) * p
  flush := .ok ⟨[], [], [], []⟩

/-- User request with an unspecified module targeting a nonexistent
contract. -/
def req6 : InvokeRequest :=
  ⟨"", "counter", "increase", [], none⟩

/-- Sample PreExec environment whose contract-descriptor lookup fails with
a non-common (hence non-ParameterError-class) error. -/
def env6 : PreExecEnv where
  getReserved := .ok []
  parseTransfer := .ok ("", "")
  newSandbox := .ok ()
  getContractDesc := fun _ => .error (.s "contract counter no descriptor in state")
  newContext := fun _ => .ok cctx9
  gasPrice := 1
  totalGas := fun l p => (l.cpu + l.memory + l.disk + l.xfee) * p
  flush := .ok ⟨[], [], [], []⟩

/-- Sample transaction with one input reference. -/
def tx2 : Transaction :=
  ⟨"tx1", ["in1"]⟩

/-- State machine whose durable admission reports the transaction already
in the unconfirmed pool. -/
def sm2a : StateMachine :=
  ⟨fun _ => (none, none), fun _ => none, fun _ => some .alreadyInUnconfirmed⟩

/-- State machine whose durable admission fails with a generic cause. -/
def sm2b : StateMachine :=
  ⟨fun _ => (none, none), fun _ => none, fun _ => some (.other "pool full")⟩

/- ===== Helper lemmas ===== -/

lemma cacheGet_set_self (c : List String) (k : String) :
    cacheGet (cacheSet c k) k = true := by
  simp [cacheGet, cacheSet]

lemma cacheGet_delete (c : List String) (k : String) :
    cacheGet (cacheDelete c k) k = false := by
  simp [cacheGet, cacheDelete]

/- ===== Claim theorems ===== -/

/-- C1, counterexample.  The check-then-mark sequence of SubmitTx (cache Get
at line 276, cache Set at line 279) is not atomic: under the interleaving in
which both callers run their Get before either runs its Set, both
submissions of the same identifier "tx1" finish the cache fast path with a
non-AlreadyExists outcome, refuting "exactly one call obtains a
non-AlreadyExists outcome and every other call reports AlreadyExists". -/
theorem c1_counterexample :
    nonAlreadyExists (runSched "tx1" [false, true, false, true] (initConc [])).c0 = true ∧
    nonAlreadyExists (runSched "tx1" [false, true, false, true] (initConc [])).c1 = true := by
  decide

/-- C1, amended.  Each cache operation is individually atomic but the
Get-then-Set pair is not; only when one caller's whole Get-Set sequence is
scheduled before the other caller's Get (the serialized schedule) does
exactly one submission of an identifier absent from the cache obtain a
non-AlreadyExists outcome while the other reports AlreadyExists. -/
theorem c1_amended (txid : String) (cache : List String)
    (h : cacheGet cache txid = false) :
    nonAlreadyExists (runSched txid [false, false, true, true] (initConc cache)).c0 = true ∧
    (runSched txid [false, false, true, true] (initConc cache)).c1.pc = 2 ∧
    (runSched txid [false, false, true, true] (initConc cache)).c1.sawExist = true ∧
    nonAlreadyExists (runSched txid [false, false, true, true] (initConc cache)).c1 = false := by
  simp [runSched, stepSched, stepOne, initConc, nonAlreadyExists, h, cacheGet_set_self]

/-- C1, witness for the amended theorem at txid "tx1" and the empty
cache. -/
theorem c1_witness :
    cacheGet [] "tx1" = false ∧
    (nonAlreadyExists (runSched "tx1" [false, false, true, true] (initConc [])).c0 = true ∧
      (runSched "tx1" [false, false, true, true] (initConc [])).c1.pc = 2 ∧
      (runSched "tx1" [false, false, true, true] (initConc [])).c1.sawExist = true ∧
      nonAlreadyExists (runSched "tx1" [false, false, true, true] (initConc [])).c1 = false) :=
  ⟨by decide, c1_amended "tx1" [] (by decide)⟩

/-- C2, counterexample.  When DoTx fails with the specific
already-in-unconfirmed-pool condition, SubmitTx does remove the optimistic
cache entry but reports the generic submission error (ErrSubmitTxFailed
wrapping the cause), whose code differs from the already-existing error's
code, refuting "reports the already-existing error to the caller". -/
theorem c2_counterexample :
    SubmitTx false sm2a [] true (some tx2) =
      ⟨some (errSubmitTxFailed.more "err:tx already in unconfirmed table"), [],
        [.queryTx, .verifyTx, .doTx]⟩ ∧
    errSubmitTxFailed.code ≠ errTxAlreadyExist.code := by
  decide

/-- C2, amended.  When DoTx fails with the already-in-unconfirmed-pool
condition, SubmitTx removes the optimistic cache entry and reports the
generic submission error wrapping the cause; for every other admission
failure it reports the generic submission error and leaves the optimistic
cache entry in place. -/
theorem c2_amended (noFee : Bool) (sm : StateMachine) (cache : List String)
    (tx : Transaction)
    (h1 : ¬tx.txid.length = 0)
    (h2 : ¬(tx.txInputs.length = 0 ∧ ¬noFee))
    (h3 : cacheGet cache tx.txid = false)
    (h4 : (sm.queryTx tx.txid).1 = none)
    (h5 : sm.verifyTx tx = none) :
    (sm.doTx tx = some .alreadyInUnconfirmed →
      SubmitTx noFee sm cache true (some tx) =
        ⟨some (errSubmitTxFailed.more ("err:" ++ StateErr.msg .alreadyInUnconfirmed)),
          cacheDelete (cacheSet cache tx.txid) tx.txid,
          [.queryTx, .verifyTx, .doTx]⟩ ∧
      cacheGet (SubmitTx noFee sm cache true (some tx)).cache tx.txid = false) ∧
    (∀ m, sm.doTx tx = some (.other m) →
      SubmitTx noFee sm cache true (some tx) =
        ⟨some (errSubmitTxFailed.more ("err:" ++ m)),
          cacheSet cache tx.txid, [.queryTx, .verifyTx, .doTx]⟩ ∧
      cacheGet (SubmitTx noFee sm cache true (some tx)).cache tx.txid = true) := by
  have h2a : ¬(tx.txInputs = [] ∧ noFee = false) := by simpa using h2
  constructor
  · intro hd
    constructor
    · simp [SubmitTx, h1, h2a, h3, h4, h5, hd, StateErr.msg]
    · simp [SubmitTx, h1, h2a, h3, h4, h5, hd, cacheGet_delete]
  · intro m hd
    constructor
    · simp [SubmitTx, h1, h2a, h3, h4, h5, hd, StateErr.msg]
    · simp [SubmitTx, h1, h2a, h3, h4, h5, hd, cacheGet_set_self]

/-- C2, witness for the amended theorem: the already-in-pool case on sm2a
removes the cache entry, the generic case on sm2b leaves it. -/
theorem c2_witness :
    ¬(Transaction.txid tx2).length = 0 ∧
    cacheGet [] tx2.txid = false ∧
    (SubmitTx false sm2a [] true (some tx2) =
      ⟨some (errSubmitTxFailed.more ("err:" ++ StateErr.msg .alreadyInUnconfirmed)),
        cacheDelete (cacheSet [] tx2.txid) tx2.txid,
        [.queryTx, .verifyTx, .doTx]⟩ ∧
      cacheGet (SubmitTx false sm2a [] true (some tx2)).cache tx2.txid = false) ∧
    (SubmitTx false sm2b [] true (some tx2) =
      ⟨some (errSubmitTxFailed.more ("err:" ++ "pool full")),
        cacheSet [] tx2.txid, [.queryTx, .verifyTx, .doTx]⟩ ∧
      cacheGet (SubmitTx false sm2b [] true (some tx2)).cache tx2.txid = true) :=
  ⟨by decide, by decide,
    (c2_amended false sm2a [] tx2 (by decide) (by decide) (by decide)
      (by decide) (by decide)).1 (by decide),
    (c2_amended false sm2b [] tx2 (by decide) (by decide) (by decide)
      (by decide) (by decide)).2 "pool full" (by decide)⟩

/-- C3 (confirmed).  A transaction with zero input references on a
fee-charging chain is rejected by SubmitTx with the insufficient-funds
error, with the cache unchanged and no state-machine call made; the same
transaction on a fee-free chain passes the input-count check and never
fails with the insufficient-funds error. -/
theorem c3_fee_gate (sm : StateMachine) (cache : List String) (tx : Transaction)
    (h1 : ¬tx.txid.length = 0) (h0 : tx.txInputs = []) :
    SubmitTx false sm cache true (some tx) = ⟨some errTxNotEnough, cache, []⟩ ∧
    (SubmitTx true sm cache true (some tx)).res ≠ some errTxNotEnough := by
  constructor
  · simp [SubmitTx, h1, h0]
  · simp only [SubmitTx, not_true, false_or]
    rw [if_neg h1]
    rw [if_neg (by simp)]
    split
    · simp [errTxAlreadyExist, errTxNotEnough]
    · split
      · simp [errTxAlreadyExist, errTxNotEnough]
      · split
        · simp [errTxVerifyFailed, errTxNotEnough, XError.more]
        · split
          · simp [errSubmitTxFailed, errTxNotEnough, XError.more]
          · simp

/-- C3, witness at a zero-input transaction with identifier "tx1". -/
theorem c3_witness :
    ¬(Transaction.txid ⟨"tx1", []⟩).length = 0 ∧
    SubmitTx false sm2a [] true (some ⟨"tx1", []⟩) = ⟨some errTxNotEnough, [], []⟩ ∧
    (SubmitTx true sm2a [] true (some ⟨"tx1", []⟩)).res ≠ some errTxNotEnough :=
  ⟨by decide,
    (c3_fee_gate sm2a [] ⟨"tx1", []⟩ (by decide) (by decide)).1,
    (c3_fee_gate sm2a [] ⟨"tx1", []⟩ (by decide) (by decide)).2⟩

/-- C10 (confirmed).  SubmitTx discards the error component of the durable
lookup QueryTx: two state machines whose lookups differ only in the
returned error behave identically, and a lookup that finds no transaction
lets submission proceed to verification (the VerifyTx call is made). -/
theorem c10_querytx_error_discarded (noFee : Bool) (dbtx : Option Transaction)
    (q1 q2 : Option String) (v : Transaction → Option String)
    (d : Transaction → Option StateErr) (cache : List String) (tx : Transaction) :
    SubmitTx noFee ⟨fun _ => (dbtx, q1), v, d⟩ cache true (some tx) =
      SubmitTx noFee ⟨fun _ => (dbtx, q2), v, d⟩ cache true (some tx) ∧
    (¬tx.txid.length = 0 → ¬(tx.txInputs.length = 0 ∧ ¬noFee) →
      cacheGet cache tx.txid = false → dbtx = none →
      SMCall.verifyTx ∈
        (SubmitTx noFee ⟨fun _ => (dbtx, q1), v, d⟩ cache true (some tx)).calls) := by
  constructor
  · rfl
  · intro h1 h2 h3 hdb
    subst hdb
    have h2a : ¬(tx.txInputs = [] ∧ noFee = false) := by simpa using h2
    rcases hv : v tx with _ | e
    · rcases hd : d tx with _ | e2
      · simp [SubmitTx, h1, h2a, h3, hv, hd]
      · simp [SubmitTx, h1, h2a, h3, hv, hd]
    · simp [SubmitTx, h1, h2a, h3, hv]

/-- C10, witness: a lookup failing with a leveldb error while finding no
transaction behaves exactly like a clean not-found lookup, and submission
reaches verification. -/
theorem c10_witness :
    SubmitTx false ⟨fun _ => (none, some "leveldb read failure"),
        fun _ => none, fun _ => none⟩ [] true (some tx2) =
      SubmitTx false ⟨fun _ => (none, none),
        fun _ => none, fun _ => none⟩ [] true (some tx2) ∧
    ((none : Option Transaction) = none ∧
      SMCall.verifyTx ∈
        (SubmitTx false ⟨fun _ => (none, some "leveldb read failure"),
          fun _ => none, fun _ => none⟩ [] true (some tx2)).calls) :=
  ⟨(c10_querytx_error_discarded false none (some "leveldb read failure") none
      (fun _ => none) (fun _ => none) [] tx2).1,
    rfl,
    (c10_querytx_error_discarded false none (some "leveldb read failure") none
      (fun _ => none) (fun _ => none) [] tx2).2 (by decide) (by decide)
      (by decide) rfl⟩

/-- C7 (confirmed).  ProcBlock rejects a null block, a null context/logger,
or a block with a null identifier with the parameter error before the
mining/consensus delegate is invoked; a delegate failure classified as
forbidden is returned as the forbidden error (whose code differs from the
generic block-processing error), a parameter-shaped failure is returned as
the parameter error, and any other failure is wrapped into the generic
block-processing error. -/
theorem c7_block_classification :
    (∀ (mp : Option GoError) (ctxOk : Bool),
      ProcBlock mp ctxOk none = ⟨some errParameter, false⟩) ∧
    (∀ (mp : Option GoError) (b : Block),
      ProcBlock mp false (some b) = ⟨some errParameter, false⟩) ∧
    (∀ (mp : Option GoError) (b : Block), b.blockid = none →
      ProcBlock mp true (some b) = ⟨some errParameter, false⟩) ∧
    (∀ (e : GoError) (b : Block), ¬b.blockid = none →
      (castError e).equal errForbidden = true →
      ProcBlock (some e) true (some b) = ⟨some errForbidden, true⟩ ∧
        errForbidden.code ≠ errProcBlockFailed.code) ∧
    (∀ (e : GoError) (b : Block), ¬b.blockid = none →
      (castError e).equal errParameter = true →
      ProcBlock (some e) true (some b) = ⟨some errParameter, true⟩) ∧
    (∀ (e : GoError) (b : Block), ¬b.blockid = none →
      (castError e).equal errForbidden = false →
      (castError e).equal errParameter = false →
      ProcBlock (some e) true (some b) =
        ⟨some (errProcBlockFailed.more ("err:" ++ e.message)), true⟩) := by
  refine ⟨?_, ?_, ?_, ?_, ?_, ?_⟩
  · intro mp ctxOk
    rfl
  · intro mp b
    simp [ProcBlock]
  · intro mp b hb
    simp [ProcBlock, hb]
  · intro e b hb hf
    have hp : (castError e).equal errParameter = false := by
      simp only [XError.equal, errForbidden, errParameter] at hf ⊢
      simp only [Nat.beq_eq_true_eq] at hf
      simp [hf]
    constructor
    · simp [ProcBlock, hb, hf]
    · decide
  · intro e b hb hp
    have hf : (castError e).equal errForbidden = false := by
      simp only [XError.equal, errForbidden, errParameter] at hp ⊢
      simp only [Nat.beq_eq_true_eq] at hp
      simp [hp]
    simp [ProcBlock, hb, hf, hp]
  · intro e b hb hf hp
    simp [ProcBlock, hb, hf, hp]

/-- C7, witness applying each delegate-failure classification at a concrete
block with identifier "b1". -/
theorem c7_witness :
    ¬(Block.blockid ⟨some "b1", 7⟩) = none ∧
    (castError (.x errForbidden)).equal errForbidden = true ∧
    ProcBlock (some (.x errForbidden)) true (some ⟨some "b1", 7⟩) =
      ⟨some errForbidden, true⟩ ∧
    ProcBlock (some (.x errParameter)) true (some ⟨some "b1", 7⟩) =
      ⟨some errParameter, true⟩ ∧
    ProcBlock (some (.s "disk glitch")) true (some ⟨some "b1", 7⟩) =
      ⟨some (errProcBlockFailed.more ("err:" ++ (GoError.s "disk glitch").message)), true⟩ ∧
    ProcBlock (some (.x errForbidden)) true none = ⟨some errParameter, false⟩ :=
  ⟨by decide, by decide,
    (c7_block_classification.2.2.2.1 (.x errForbidden) ⟨some "b1", 7⟩
      (by decide) (by decide)).1,
    c7_block_classification.2.2.2.2.1 (.x errParameter) ⟨some "b1", 7⟩
      (by decide) (by decide),
    c7_block_classification.2.2.2.2.2 (.s "disk glitch") ⟨some "b1", 7⟩
      (by decide) (by decide) (by decide),
    c7_block_classification.1 (some (.x errForbidden)) true⟩

/-- C8, counterexample.  Steps 1 (ledger) and 11 (xtoken) of initChainCtx
surface the underlying error unchanged, so two bring-ups failing at
different steps can surface the identical error cause, refuting "a distinct
error cause identifying which step failed is surfaced": the failing steps
differ (the entered-step traces differ) while the surfaced causes are
equal. -/
theorem c8_counterexample :
    (initChainCtx (failAt 1 "disk failure")).1 = some "disk failure" ∧
    (initChainCtx (failAt 12 "disk failure")).1 = some "disk failure" ∧
    (initChainCtx (failAt 1 "disk failure")).1 =
      (initChainCtx (failAt 12 "disk failure")).1 ∧
    (initChainCtx (failAt 1 "disk failure")).2 ≠
      (initChainCtx (failAt 12 "disk failure")).2 := by
  decide

/-- C8, amended.  Any construction call failing aborts the bring-up at that
step (the later steps are never entered) and LoadChain returns no chain,
only the chain-context error wrapping the cause; calls 2 to 11 (the
interior steps) surface pairwise-distinct fixed step-identifying causes,
while calls 1 and 12 (ledger and xtoken) surface the underlying error
unchanged, which need not identify the step. -/
theorem c8_amended :
    (∀ (k : Nat) (e : String), 1 ≤ k → k ≤ 12 →
      initChainCtx (failAt k e) = (some (expectedCause k e), enteredSteps k) ∧
      LoadChain true "xuper" (.ok ()) (failAt k e) =
        .error (errNewChainCtxFailed.more ("err:" ++ expectedCause k e))) ∧
    (∀ (e : String) (j j2 : Nat), 2 ≤ j → j ≤ 11 → 2 ≤ j2 → j2 ≤ 11 → j ≠ j2 →
      expectedCause j e ≠ expectedCause j2 e) := by
  constructor
  · intro k e h1 h2
    interval_cases k <;>
      simp [initChainCtx, failAt, expectedCause, enteredSteps, LoadChain]
  · intro e j j2 hj1 hj2 hk1 hk2 hne
    interval_cases j <;> interval_cases j2 <;>
      first
        | exact absurd rfl hne
        | simp [expectedCause]

/-- C8, witness applying the amended theorem at a failure of call 4 (the
state machine) with cause "boom". -/
theorem c8_witness :
    1 ≤ 4 ∧ (4 : Nat) ≤ 12 ∧
    (initChainCtx (failAt 4 "boom") =
      (some (expectedCause 4 "boom"), enteredSteps 4) ∧
    LoadChain true "xuper" (.ok ()) (failAt 4 "boom") =
      .error (errNewChainCtxFailed.more ("err:" ++ expectedCause 4 "boom"))) ∧
    expectedCause 4 "boom" ≠ expectedCause 5 "boom" :=
  ⟨by decide, by decide,
    c8_amended.1 4 "boom" (by decide) (by decide),
    c8_amended.2 "boom" 4 5 (by decide) (by decide) (by decide) (by decide)
      (by decide)⟩

/-- Gas invariant of the per-request loop: on a successful run the
accumulated gas equals the starting gas plus the spec-side sum of priced
usage of the successfully executed user requests. -/
lemma preExecLoop_gasUsed (L : LoopEnv) :
    ∀ (l : List (Option InvokeRequest)) (i : Nat) (s t : LoopState),
      preExecLoop L i l s = .ok t →
      t.gasUsed = s.gasUsed + specUserGas L i l := by
  intro l
  induction l with
  | nil =>
    intro i s t h
    simp only [preExecLoop] at h
    cases h
    simp [specUserGas]
  | cons hd rest ih =>
    intro i s t h
    cases hd with
    | none =>
      simp only [preExecLoop] at h
      simpa [specUserGas] using ih (i + 1) s t h
    | some req =>
      simp only [preExecLoop] at h
      split at h
      next hemp =>
        have hg := ih (i + 1) s t h
        simp only [specUserGas, if_pos hemp]
        exact hg
      next hemp =>
        split at h
        next e hm => cases h
        next m hm =>
          split at h
          next e hc =>
            split at h
            next hskip =>
              have hg := ih (i + 1) _ t h
              simp only [specUserGas, if_neg hemp, hm, hc]
              simpa using hg
            next hskip => cases h
          next cctx hc =>
            split at h
            next e hi2 => cases h
            next resp hi2 =>
              split at h
              next hst => cases h
              next hst =>
                have hg := ih (i + 1) _ t h
                simp only [specUserGas, if_neg hemp, hm, hc, hi2, if_neg hst]
                simp only [] at hg
                rw [hg]
                omega

/-- C4 (confirmed).  For every pre-execution batch of K reserved requests
prepended to the user requests, the GasUsed field of a returned
InvokeResponse equals the spec-side sum of the priced resource usage of the
successfully executed user requests only; requests at positions below the
reserved count contribute zero to the aggregate. -/
theorem c4_reserved_gas_exemption (env : PreExecEnv)
    (reqs : List (Option InvokeRequest)) (ini : String) (au : List String)
    (cn : String) (reserved : List (Option InvokeRequest)) (p : String × String)
    (r : InvokeResponse)
    (hres : env.getReserved = .ok reserved)
    (hp : env.parseTransfer = .ok p)
    (hrun : (PreExec env true reqs ini au cn).resp = some r) :
    r.gasUsed =
      specUserGas ⟨env, reserved.length, p.1, p.2, ini, au, cn⟩ 0 (reserved ++ reqs) := by
  simp only [PreExec, hres, hp, not_true, if_false] at hrun
  by_cases hlen : (reserved ++ reqs).length = 0
  · rw [List.length_eq_zero] at hlen
    simp [hlen] at hrun
    simp [← hrun, hlen, specUserGas, emptyInvokeResponse]
  · have hlen2 : ¬(reserved ++ reqs).length = 0 := hlen
    simp only [if_neg hlen2] at hrun
    rcases hsb : env.newSandbox with e | u
    · simp [hsb] at hrun
    · simp only [hsb] at hrun
      rcases hloop : preExecLoop ⟨env, reserved.length, p.1, p.2, ini, au, cn⟩
          0 (reserved ++ reqs) ⟨0, [], [], []⟩ with e | s
      · simp [hloop] at hrun
      · simp only [hloop] at hrun
        rcases hf : env.flush with e | rws
        · simp [hf] at hrun
        · simp only [hf, Option.some.injEq] at hrun
          have hg := preExecLoop_gasUsed _ _ _ _ _ hloop
          rw [← hrun]
          simpa using hg

/-- C4, witness: on the sample environment env9 (one reserved request
skipped as not-found, one user request executed), the returned aggregate
gas equals the spec-side user gas. -/
theorem c4_witness :
    env9.getReserved = .ok [some r0] ∧
    env9.parseTransfer = .ok ("", "0") ∧
    (PreExec env9 true [some r1] "alice" [] "xuper").resp = some ir9 ∧
    ir9.gasUsed =
      specUserGas ⟨env9, List.length [some r0], "", "0", "alice", [], "xuper"⟩
        0 ([some r0] ++ [some r1]) :=
  ⟨rfl, rfl, by decide,
    c4_reserved_gas_exemption env9 [some r1] "alice" [] "xuper"
      [some r0] ("", "0") ir9 rfl rfl (by decide)⟩

/-- C5 (confirmed).  Whenever the per-request loop aborts with an error
(context-construction failure for a user request, descriptor-lookup
failure, any invocation error, or a reserved request answering a status of
400 or more), PreExec surfaces that error with no InvokeResponse — no
partial Requests, Responses, Inputs or Outputs — and the sandbox's Flush is
never invoked. -/
theorem c5_all_or_nothing (env : PreExecEnv)
    (reqs : List (Option InvokeRequest)) (ini : String) (au : List String)
    (cn : String) (reserved : List (Option InvokeRequest)) (p : String × String)
    (e : GoError)
    (hres : env.getReserved = .ok reserved)
    (hp : env.parseTransfer = .ok p)
    (hlen : ¬(reserved ++ reqs).length = 0)
    (hsb : env.newSandbox = .ok ())
    (hloop : preExecLoop ⟨env, reserved.length, p.1, p.2, ini, au, cn⟩
      0 (reserved ++ reqs) ⟨0, [], [], []⟩ = .error e) :
    PreExec env true reqs ini au cn = ⟨none, some e, false⟩ := by
  simp [PreExec, hres, hp, hlen, hsb, hloop]
  intro h1 h2
  exact hlen (by simp [h1, h2])

/-- C5, witness: on environment env5 the single user request fails at
invocation, and PreExec returns the invocation error unflushed with no
response. -/
theorem c5_witness :
    env5.getReserved = .ok [] ∧
    ¬(([] ++ [some r5]).length = 0) ∧
    preExecLoop ⟨env5, List.length ([] : List (Option InvokeRequest)), "", "",
        "alice", [], "xuper"⟩ 0 ([] ++ [some r5]) ⟨0, [], [], []⟩ =
      .error (.x (errContractInvokeFailed.more "vm crashed")) ∧
    PreExec env5 true [some r5] "alice" [] "xuper" =
      ⟨none, some (.x (errContractInvokeFailed.more "vm crashed")), false⟩ :=
  ⟨rfl, by decide, rfl,
    c5_all_or_nothing env5 [some r5] "alice" [] "xuper" [] ("", "")
      (.x (errContractInvokeFailed.more "vm crashed")) rfl rfl
      (by decide) rfl rfl⟩

/-- C6, counterexample.  A single request with an unspecified module whose
contract-descriptor lookup fails is answered by PreExec with the lookup
error passed through unchanged — here a plain state error, which is not a
ParameterError-class error — so "fails with a ParameterError-class error"
is refuted, while the sandbox is indeed never flushed. -/
theorem c6_counterexample :
    PreExec env6 true [some req6] "alice" [] "xuper" =
      ⟨none, some (.s "contract counter no descriptor in state"), false⟩ ∧
    (castError (.s "contract counter no descriptor in state")).code ≠
      errParameter.code := by
  decide

/-- C6, amended.  For every request with an unspecified module whose
contract-descriptor lookup in current state fails, PreExec fails with the
lookup error passed through unchanged (whatever its class), and the
sandbox is never flushed. -/
theorem c6_amended (env : PreExecEnv) (req : InvokeRequest) (ini cn : String)
    (au : List String) (p : String × String) (e : GoError)
    (hres : env.getReserved = .ok [])
    (hp : env.parseTransfer = .ok p)
    (hsb : env.newSandbox = .ok ())
    (hmod : req.moduleName = "")
    (hne : ¬(req.contractName = "" ∧ req.methodName = ""))
    (hdesc : env.getContractDesc req.contractName = .error e) :
    PreExec env true [some req] ini au cn = ⟨none, some e, false⟩ := by
  have hloop : preExecLoop ⟨env, 0, p.1, p.2, ini, au, cn⟩ 0 [some req]
      ⟨0, [], [], []⟩ = .error e := by
    simp [preExecLoop, hmod, hne, resolveModule, hdesc]
  simp [PreExec, hres, hp, hsb, hloop]

/-- C6, witness: the amended theorem applied on environment env6 at the
empty-module request req6. -/
theorem c6_witness :
    (InvokeRequest.moduleName req6) = "" ∧
    env6.getContractDesc req6.contractName =
      .error (.s "contract counter no descriptor in state") ∧
    PreExec env6 true [some req6] "alice" [] "xuper" =
      ⟨none, some (.s "contract counter no descriptor in state"), false⟩ :=
  ⟨rfl, rfl,
    c6_amended env6 req6 "alice" "xuper" [] ("", "")
      (.s "contract counter no descriptor in state") rfl rfl rfl rfl
      (by decide) rfl⟩

/-- C9 (confirmed).  When context construction for a reserved request
(position below the reserved count) fails with an error ending in "not
found", the loop appends the original request to the output request list
without appending any response or response body, so the returned
InvokeResponse can carry Requests and Responses lists of different lengths
— on env9 the returned lists have lengths 2 and 1. -/
theorem c9_reserved_notfound_requests_only :
    (∀ (L : LoopEnv) (i : Nat) (req : InvokeRequest)
      (rest : List (Option InvokeRequest)) (s : LoopState) (m e : String),
      ¬(req.moduleName = "" ∧ req.contractName = "" ∧ req.methodName = "") →
      resolveModule L req = .ok m →
      L.env.newContext (mkConfig L req m) = .error e →
      i < L.K → goHasSuffix e "not found" = true →
      preExecLoop L i (some req :: rest) s =
        preExecLoop L (i + 1) rest { s with requests := s.requests ++ [req] }) ∧
    ((PreExec env9 true [some r1] "alice" [] "xuper").resp.map
      (fun r => (r.requests.length, r.responses.length))) = some (2, 1) ∧
    ((PreExec env9 true [some r1] "alice" [] "xuper").resp.map
      (fun r => r.requests.length == r.responses.length)) = some false := by
  refine ⟨?_, by decide, by decide⟩
  intro L i req rest s m e hne hm hc hik hsuf
  simp [preExecLoop, hne, hm, hc, hik, hsuf]

/-- C9, witness: the loop-step equation applied at the reserved request r0
of environment env9, whose context construction fails with a "not found"
cause. -/
theorem c9_witness :
    resolveModule L9 r0 = .ok "xkernel" ∧
    L9.env.newContext (mkConfig L9 r0 "xkernel") =
      .error "kernel contract timer not found" ∧
    0 < L9.K ∧
    goHasSuffix "kernel contract timer not found" "not found" = true ∧
    preExecLoop L9 0 [some r0] ⟨0, [], [], []⟩ =
      preExecLoop L9 (0 + 1) [] ⟨0, [], [] ++ [r0], []⟩ :=
  ⟨rfl, rfl, by decide, by decide,
    c9_reserved_notfound_requests_only.1 L9 0 r0 [] ⟨0, [], [], []⟩
      "xkernel" "kernel contract timer not found" (by decide) rfl
      rfl (by decide) (by decide)⟩

end Xuperos
